import Mathlib

set_option maxRecDepth 8000

/-!
# DepRadar — Vulnerability Correlation Engine, shallow embedding

This file embeds the core of the `src/services/cve.ts` and `src/services/audit.ts`
modules: the version comparator, the range matcher, the advisory catalog lookup,
the per-ecosystem audit adapters (their pure normalization logic, with the
filesystem / subprocess environment made an explicit parameter), and the
aggregator.  JavaScript truthiness and `parseInt` semantics are modelled
explicitly where the source relies on them.
-/

namespace DepRadar

/-! ### JavaScript primitive semantics -/

/-- JS whitespace (the common characters; exotic Unicode spaces are not modelled). -/
def isJsSpace (c : Char) : Bool :=
  c = ' ' || c = '\t' || c = '\n' || c = '\r'

/-- Value of a nonempty decimal digit string. -/
def digitsToNat (ds : List Char) : Nat :=
  ds.foldl (fun acc c => acc * 10 + (c.toNat - '0'.toNat)) 0

/-- JS `parseInt(s, 10)`: skip leading whitespace, optional sign, then the longest
leading run of decimal digits; `none` models `NaN`. -/
def jsParseInt10 (cs : List Char) : Option Int :=
  let cs := cs.dropWhile isJsSpace
  match cs with
  | '-' :: rest =>
      let ds := rest.takeWhile Char.isDigit
      if ds.isEmpty then none else some (-(digitsToNat ds : Int))
  | '+' :: rest =>
      let ds := rest.takeWhile Char.isDigit
      if ds.isEmpty then none else some ((digitsToNat ds : Int))
  | _ =>
      let ds := cs.takeWhile Char.isDigit
      if ds.isEmpty then none else some ((digitsToNat ds : Int))

/-- JS `parseInt(s, 10) || 0` (`NaN` is falsy; a parsed `0` stays `0`). -/
def jsParseIntOr0 (cs : List Char) : Int :=
  (jsParseInt10 cs).getD 0

/-- JS `String.prototype.split(".")` on a character list. -/
def splitDots (cs : List Char) : List (List Char) :=
  cs.foldr
    (fun c groups =>
      if c = '.' then [] :: groups
      else
        match groups with
        | [] => [[c]]
        | g :: gs => (c :: g) :: gs)
    [[]]

/-- JS `String.prototype.split(/\s+/)`: maximal whitespace runs are single
separators (a leading run still yields a leading empty token, as in JS). -/
def splitWs (cs : List Char) : List (List Char) :=
  (cs.foldr
    (fun c st =>
      if isJsSpace c then
        if st.1 then st else (true, [] :: st.2)
      else
        match st.2 with
        | [] => (false, [[c]])
        | g :: gs => (false, (c :: g) :: gs))
    (false, ([[]] : List (List Char)))).2

/-- JS `a || b` for strings (empty string is falsy), `a : string | undefined`. -/
def jsOrStr (a : Option String) (b : String) : String :=
  match a with
  | some s => if s = "" then b else s
  | none => b

/-- JS `a || null` for strings: an absent or empty string becomes `null`. -/
def jsStrOrNull (a : Option String) : Option String :=
  match a with
  | some "" => none
  | x => x

/-- JS `a || b` for counters (`0` and `undefined` are falsy). -/
def jsOrNat (a : Option Nat) (b : Nat) : Nat :=
  match a with
  | some n => if n = 0 then b else n
  | none => b

/-- JS truthiness of a `string | null` value. -/
def jsTruthyOptStr (a : Option String) : Bool :=
  match a with
  | some s => s ≠ ""
  | none => false

/-! ### Version Comparator (`cve.ts`, `parseVersion` / `compareVersions`) -/

/-- `parseVersion` on a character list: strip the leading run of non-digits
(`v.replace(/^[^0-9]*/, "")`), split on `"."`, map `parseInt(n, 10) || 0`. -/
def parseVersionC (cs : List Char) : List Int :=
  (splitDots (cs.dropWhile (fun c => !c.isDigit))).map jsParseIntOr0

/-- `parseVersion(v)` from `cve.ts`. -/
def parseVersion (v : String) : List Int :=
  parseVersionC v.data

/-- Tail of the `compareVersions` loop once one side is exhausted: the exhausted
side reads as `0` at every position, so the result is the first nonzero
remaining component (or `0`). -/
def cmpTail : List Int → Int
  | [] => 0
  | a :: xs => if a ≠ 0 then a else cmpTail xs

/-- The comparison loop of `compareVersions`: walk both component lists up to the
longer length, a missing component reads as `0` (`pa[i] || 0`), and the first
position where they differ returns the raw difference `va - vb`. -/
def cmpComponents : List Int → List Int → Int
  | [], ys => -(cmpTail ys)
  | xs, [] => cmpTail xs
  | a :: xs, b :: ys => if a ≠ b then a - b else cmpComponents xs ys

/-- `compareVersions(a, b)` from `cve.ts`. -/
def compareVersions (a b : String) : Int :=
  cmpComponents (parseVersion a) (parseVersion b)

/-! ### Range Matcher (`cve.ts`, `isInRange`) -/

/-- The character class `[><=!]` of the constraint regex. -/
def isOpChar (c : Char) : Bool :=
  c = '>' || c = '<' || c = '=' || c = '!'

/-- `part.match(/^([><=!]+)(.+)$/)`: the operator group takes the longest prefix
of `[><=!]` characters; since `(.+)` must be nonempty, the regex backtracks one
character when the whole token is operator characters (so `">="` alone parses as
operator `">"` with target `"="`).  `none` models a failed match. -/
def parseConstraint (tok : List Char) : Option (List Char × List Char) :=
  let k := (tok.takeWhile isOpChar).length
  if k = 0 then none
  else if k < tok.length then some (tok.take k, tok.drop k)
  else if 2 ≤ tok.length then some (tok.take (tok.length - 1), tok.drop (tok.length - 1))
  else none

/-- The `switch (op)` of `isInRange`: each recognized operator constrains the
comparison result; an unrecognized operator string imposes no constraint. -/
def constraintHolds (version : List Char) (op target : List Char) : Bool :=
  let c := cmpComponents (parseVersionC version) (parseVersionC target)
  let o : String := String.mk op
  if o = ">=" then decide (0 ≤ c)
  else if o = ">" then decide (0 < c)
  else if o = "<=" then decide (c ≤ 0)
  else if o = "<" then decide (c < 0)
  else if o = "=" || o = "==" then decide (c = 0)
  else true

/-- `isInRange(version, range)` from `cve.ts`: split on whitespace, skip tokens
the constraint regex rejects, AND the remaining constraints (the source's early
`return false` is the same as `List.all`). -/
def isInRange (version range : String) : Bool :=
  (splitWs range.data).all fun tok =>
    match parseConstraint tok with
    | none => true
    | some (op, target) => constraintHolds version.data op target

example : isInRange "5.6.1" ">=5.1.0 <5.6.2" = true := by decide
example : isInRange "5.6.2" ">=5.1.0 <5.6.2" = false := by decide
example : isInRange "1.2.3" "not-a-constraint" = true := by decide
example : compareVersions "5.1" "5.1.0" = 0 := by decide
example : compareVersions "1.0" "3.0" = -2 := by decide

/-! ### Advisory Catalog (`cve.ts`) -/

/-- `CveAdvisory` from `cve.ts` (the severity enum is carried as its string, as
it is at runtime). -/
structure CveAdvisory where
  id : String
  pkg : String
  severity : String
  title : String
  affectedVersions : String
  patchedVersion : String
  url : String
  date : String
deriving DecidableEq, Repr

/-- `CveMatch` from `cve.ts`. -/
structure CveMatch where
  advisory : CveAdvisory
  installedVersion : String
  isAffected : Bool
deriving DecidableEq, Repr

/-- `CVE_DATABASE` from `cve.ts`, entry for entry. -/
def CVE_DATABASE : List CveAdvisory :=
  [ { id := "CVE-2026-22775", pkg := "devalue", severity := "high",
      title := "DoS via memory/CPU exhaustion in devalue.parse",
      affectedVersions := ">=5.1.0 <5.6.2", patchedVersion := "5.6.2",
      url := "https://github.com/sveltejs/devalue/security/advisories/GHSA-g2pg-6438-jwpf",
      date := "2026-01-15" },
    { id := "CVE-2026-22774", pkg := "devalue", severity := "high",
      title := "DoS via memory exhaustion in devalue.parse",
      affectedVersions := ">=5.3.0 <5.6.2", patchedVersion := "5.6.2",
      url := "https://github.com/sveltejs/devalue/security/advisories/GHSA-vw5p-8cq8-m7mv",
      date := "2026-01-15" },
    { id := "CVE-2026-22803", pkg := "@sveltejs/kit", severity := "high",
      title := "Memory amplification DoS in Remote Functions binary form deserializer",
      affectedVersions := ">=2.49.0 <2.49.5", patchedVersion := "2.49.5",
      url := "https://github.com/sveltejs/kit/security/advisories/GHSA-j2f3-wq62-6q46",
      date := "2026-01-15" },
    { id := "CVE-2025-67647", pkg := "@sveltejs/kit", severity := "critical",
      title := "DoS and SSRF via prerendering",
      affectedVersions := ">=2.19.0 <2.49.5", patchedVersion := "2.49.5",
      url := "https://github.com/sveltejs/kit/security/advisories/GHSA-j62c-4x62-9r35",
      date := "2026-01-15" },
    { id := "CVE-2025-67647", pkg := "@sveltejs/adapter-node", severity := "high",
      title := "DoS and SSRF when using prerendering without ORIGIN env var",
      affectedVersions := "<5.5.1", patchedVersion := "5.5.1",
      url := "https://github.com/sveltejs/kit/security/advisories/GHSA-j62c-4x62-9r35",
      date := "2026-01-15" },
    { id := "CVE-2025-15265", pkg := "svelte", severity := "moderate",
      title := "XSS via hydratable with unsanitized user-controlled keys",
      affectedVersions := ">=5.46.0 <5.46.4", patchedVersion := "5.46.4",
      url := "https://github.com/sveltejs/svelte/security/advisories/GHSA-6738-r8g5-qwp3",
      date := "2026-01-15" },
    { id := "CVE-2025-29927", pkg := "next", severity := "critical",
      title := "Authorization bypass via x-middleware-subrequest header",
      affectedVersions := ">=12.0.0 <14.2.25", patchedVersion := "14.2.25",
      url := "https://github.com/vercel/next.js/security/advisories/GHSA-f82v-jh2m-4xrg",
      date := "2025-03-21" },
    { id := "CVE-2024-56332", pkg := "next", severity := "high",
      title := "DoS via image optimization",
      affectedVersions := ">=10.0.0 <14.2.21", patchedVersion := "14.2.21",
      url := "https://github.com/vercel/next.js/security/advisories/GHSA-gp8f-8m3g-qvj9",
      date := "2024-12-17" },
    { id := "CVE-2024-29041", pkg := "express", severity := "moderate",
      title := "Open redirect in express.response.redirect",
      affectedVersions := "<4.19.2", patchedVersion := "4.19.2",
      url := "https://github.com/expressjs/express/security/advisories/GHSA-rv95-896h-c2vc",
      date := "2024-03-25" },
    { id := "CVE-2025-30208", pkg := "vite", severity := "high",
      title := "Arbitrary file access via special URL characters",
      affectedVersions := ">=6.0.0 <6.0.12", patchedVersion := "6.0.12",
      url := "https://github.com/vitejs/vite/security/advisories/GHSA-x574-m823-4c42",
      date := "2025-03-24" },
    { id := "CVE-2025-27152", pkg := "axios", severity := "high",
      title := "SSRF and credential leakage via absolute URL override",
      affectedVersions := ">=1.0.0 <1.8.2", patchedVersion := "1.8.2",
      url := "https://github.com/axios/axios/security/advisories/GHSA-jr45-m27q-7655",
      date := "2025-03-07" } ]

/-- Property read `installed[advisory.package]` on the installed-version record
(a JS object: key lookup, `none` when the key is absent). -/
def lookupJs : List (String × String) → String → Option String
  | [], _ => none
  | (k, v) :: rest, key => if k = key then some v else lookupJs rest key

/-- The advisory loop of `checkProjectCves`, over an explicit installed-version
map and catalog: `const version = installed[advisory.package]; if (!version)
continue;` (JS falsy skips both an absent and an empty version), then
`isInRange` gates the pushed match, whose `isAffected` flag is always `true`. -/
def checkCvesAgainst (installed : List (String × String)) (db : List CveAdvisory) :
    List CveMatch :=
  db.filterMap fun adv =>
    match lookupJs installed adv.pkg with
    | none => none
    | some v =>
        if v = "" then none
        else if isInRange v adv.affectedVersions then
          some { advisory := adv, installedVersion := v, isAffected := true }
        else none

/-! ### Normalized audit data model (`audit.ts`) -/

/-- `VulnerabilityInfo` from `audit.ts`; the severity union is carried as a
string, as it is at runtime. -/
structure VulnerabilityInfo where
  pkg : String
  severity : String
  title : String
  url : String
  fixVersion : Option String
  currentVersion : Option String
deriving DecidableEq, Repr

/-- `AuditResult` from `audit.ts`. -/
structure AuditResult where
  project : String
  language : String
  vulnerabilities : List VulnerabilityInfo
  totalVulnerabilities : Nat
  critical : Nat
  high : Nat
  moderate : Nat
  low : Nat
  auditCommand : String
  error : Option String
deriving DecidableEq, Repr

/-- `vulns.filter(v => v.severity === s).length`, the severity-count expression
the adapters use. -/
def countSev (vs : List VulnerabilityInfo) (s : String) : Nat :=
  (vs.filter fun v => v.severity = s).length

/-- The §3 invariant: each severity count on a result equals the count of
entries of that severity in the result's own vulnerability list. -/
def sevConsistent (r : AuditResult) : Prop :=
  r.critical = countSev r.vulnerabilities "critical" ∧
  r.high = countSev r.vulnerabilities "high" ∧
  r.moderate = countSev r.vulnerabilities "moderate" ∧
  r.low = countSev r.vulnerabilities "low"

instance (r : AuditResult) : Decidable (sevConsistent r) := by
  unfold sevConsistent; infer_instance

/-- `emptyResult` from `audit.ts`. -/
def emptyResult (project language auditCommand : String) (error : Option String) :
    AuditResult :=
  { project := project, language := language, vulnerabilities := [],
    totalVulnerabilities := 0, critical := 0, high := 0, moderate := 0, low := 0,
    auditCommand := auditCommand, error := error }

/-! ### Node adapter (`audit.ts`, `auditNode`)

The subprocess and `JSON.parse` are effectful; they enter the embedding as an
explicit `NodeEnv`: which lockfiles exist, whether `cmd` returned a truthy
string, and what `JSON.parse` yields on it (`none` models a thrown parse
error).  The parsed JSON is modelled at the granularity of the fields the
source reads. -/

/-- One element of an npm advisory `via` array: a plain string or an object
with optional `title` / `url` fields. -/
inductive NpmVia where
  | str (s : String)
  | obj (title : Option String) (url : Option String)
deriving DecidableEq, Repr

/-- The `fixAvailable` field: absent/`undefined`, a boolean, or an object with
an optional `version` (a JSON `null` behaves like `obj none`, since JS
`typeof null === "object"` and `null?.version` is `undefined`). -/
inductive NpmFix where
  | missing
  | bool (b : Bool)
  | obj (version : Option String)
deriving DecidableEq, Repr

/-- One entry of the npm `vulnerabilities` map (`severity`, `via`,
`fixAvailable`, `range`); `via := none` models a non-array `via`
(`Array.isArray(info.via) ? info.via : []`). -/
structure NpmVulnInfo where
  severity : Option String
  via : Option (List NpmVia)
  fixAvailable : NpmFix
  range : Option String
deriving DecidableEq, Repr

/-- `data.metadata?.vulnerabilities` counter fields (each possibly absent). -/
structure NpmMeta where
  total : Option Nat
  critical : Option Nat
  high : Option Nat
  moderate : Option Nat
  low : Option Nat
deriving DecidableEq, Repr

/-- The parsed npm/pnpm audit JSON document: the `vulnerabilities` map as an
entry list (`Object.entries` order), `none` when the field is absent/falsy;
`metadata` is `data.metadata?.vulnerabilities`. -/
structure NpmAuditData where
  vulnerabilities : Option (List (String × NpmVulnInfo))
  metadata : Option NpmMeta
deriving DecidableEq, Repr

/-- `via.find(v => typeof v === "object" && v.title)`: first object element
with a truthy title. -/
def findViaAdvisory (via : List NpmVia) : Option NpmVia :=
  via.find? fun v =>
    match v with
    | .obj t _ => jsTruthyOptStr t
    | .str _ => false

/-- Construction of one normalized node vulnerability from a `vulnerabilities`
map entry (the `vulns.push({...})` body). -/
def mkNodeVuln (p : String) (info : NpmVulnInfo) : VulnerabilityInfo :=
  let via := info.via.getD []
  let adv := findViaAdvisory via
  { pkg := p
  , severity := jsOrStr info.severity "moderate"
  , title :=
      match adv with
      | some (.obj t _) => jsOrStr t ("Vulnerability in " ++ p)
      | _ => "Vulnerability in " ++ p
  , url :=
      match adv with
      | some (.obj _ u) => jsOrStr u ""
      | _ => ""
  , fixVersion :=
      match info.fixAvailable with
      | .obj v => jsStrOrNull v
      | .bool true => some "available"
      | .bool false => none
      | .missing => none
  , currentVersion := jsStrOrNull info.range }

/-- The npm/pnpm parsing branch of `auditNode` after a successful
`JSON.parse`: build the normalized list, then each summary field is
`meta.X || recomputed-from-list` (JS `||`, so a present nonzero metadata
counter wins over the recomputed count). -/
def auditNodeParsed (projectName auditCmd : String) (data : NpmAuditData) :
    AuditResult :=
  let vulns :=
    match data.vulnerabilities with
    | none => []
    | some entries => entries.map fun e => mkNodeVuln e.1 e.2
  let mget (f : NpmMeta → Option Nat) : Option Nat :=
    match data.metadata with
    | none => none
    | some m => f m
  { project := projectName
  , language := "node"
  , vulnerabilities := vulns
  , totalVulnerabilities := jsOrNat (mget NpmMeta.total) vulns.length
  , critical := jsOrNat (mget NpmMeta.critical) (countSev vulns "critical")
  , high := jsOrNat (mget NpmMeta.high) (countSev vulns "high")
  , moderate := jsOrNat (mget NpmMeta.moderate) (countSev vulns "moderate")
  , low := jsOrNat (mget NpmMeta.low) (countSev vulns "low")
  , auditCommand := auditCmd
  , error := none }

/-- The environment one `auditNode` call observes: lockfile presence, whether
`cmd` returned a truthy string, and the `JSON.parse` outcome on it. -/
structure NodeEnv where
  hasPnpmLock : Bool
  hasYarnLock : Bool
  hasBunLock : Bool
  rawTruthy : Bool
  parseResult : Option NpmAuditData
deriving DecidableEq, Repr

/-- Package-manager detection (pnpm > yarn > bun > npm, by lockfile). -/
def detectPm (e : NodeEnv) : String :=
  if e.hasPnpmLock then "pnpm"
  else if e.hasYarnLock then "yarn"
  else if e.hasBunLock then "bun"
  else "npm"

/-- The audit command chosen per package manager. -/
def nodeAuditCmd (pm : String) : String :=
  if pm = "pnpm" then "pnpm audit --json"
  else if pm = "yarn" then "yarn audit --json"
  else "npm audit --json"

/-- `auditNode`: falsy raw output is a command failure; for npm/pnpm the raw
output is parsed (a throwing `JSON.parse` is the catch branch); for yarn/bun
control falls through the `if` to the final `emptyResult(..., null)`. -/
def auditNode (e : NodeEnv) (projectName : String) : AuditResult :=
  let pm := detectPm e
  let auditCmd := nodeAuditCmd pm
  if !e.rawTruthy then
    emptyResult projectName "node" auditCmd (some "Audit command failed or timed out.")
  else if pm = "npm" ∨ pm = "pnpm" then
    match e.parseResult with
    | none => emptyResult projectName "node" auditCmd (some "Failed to parse audit output.")
    | some data => auditNodeParsed projectName auditCmd data
  else
    emptyResult projectName "node" auditCmd none

/-! ### Rust adapter (`audit.ts`, `auditRust` / `mapRustSeverity`) -/

/-- `mapRustSeverity(cvss)` for a numeric-or-absent CVSS value (`none` models
`undefined`/`null`; the string-`parseFloat` path is not exercised by the
claims).  JS `!cvss` is the first check, so a numeric `0` is falsy and yields
`"moderate"` before any threshold runs. -/
def mapRustSeverity : Option ℚ → String
  | none => "moderate"
  | some score =>
      if score = 0 then "moderate"
      else if 9 ≤ score then "critical"
      else if 7 ≤ score then "high"
      else if 4 ≤ score then "moderate"
      else "low"

/-- One element of `data.vulnerabilities.list`, at the granularity the source
reads it. -/
structure RustVulnEntry where
  advPackage : Option String
  cvss : Option ℚ
  advTitle : Option String
  advUrl : Option String
  patchedFirst : Option String
  pkgVersion : Option String
deriving DecidableEq, Repr

/-- The `.map` body of `auditRust`. -/
def mkRustVuln (v : RustVulnEntry) : VulnerabilityInfo :=
  { pkg := jsOrStr v.advPackage "unknown"
  , severity := mapRustSeverity v.cvss
  , title := jsOrStr v.advTitle "Unknown vulnerability"
  , url := jsOrStr v.advUrl ""
  , fixVersion := jsStrOrNull v.patchedFirst
  , currentVersion := jsStrOrNull v.pkgVersion }

/-- The parse branch of `auditRust`: normalize `data.vulnerabilities?.list || []`
and recompute every count from the normalized list. -/
def auditRustParsed (projectName : String) (entries : List RustVulnEntry) :
    AuditResult :=
  let vulns := entries.map mkRustVuln
  { project := projectName, language := "rust", vulnerabilities := vulns
  , totalVulnerabilities := vulns.length
  , critical := countSev vulns "critical", high := countSev vulns "high"
  , moderate := countSev vulns "moderate", low := countSev vulns "low"
  , auditCommand := "cargo audit --json", error := none }

/-- `auditRust` with its environment explicit: tool presence, truthy raw
output, and the `JSON.parse` outcome (the inner `Option` list is
`data.vulnerabilities?.list || []` already applied by the data model). -/
def auditRust (hasCargoAudit hasCargo rawTruthy : Bool)
    (parsed : Option (List RustVulnEntry)) (projectName : String) : AuditResult :=
  if !hasCargoAudit && !hasCargo then
    emptyResult projectName "rust" "cargo audit"
      (some "cargo-audit not installed. Run: cargo install cargo-audit")
  else if !rawTruthy then
    emptyResult projectName "rust" "cargo audit --json" (some "Audit command failed.")
  else
    match parsed with
    | none => emptyResult projectName "rust" "cargo audit --json"
        (some "Failed to parse audit output.")
    | some entries => auditRustParsed projectName entries

/-! ### Python adapter (`audit.ts`, `auditPython`) -/

/-- One pip-audit vulnerability record (`fix_versions` absent and empty are
observationally identical in the source, so both are the empty list). -/
structure PyVuln where
  id : Option String
  aliases : List String
  fixVersions : List String
deriving DecidableEq, Repr

/-- One dependency record of the pip-audit output. -/
structure PyDep where
  name : String
  version : Option String
  vulns : List PyVuln
deriving DecidableEq, Repr

/-- The `.flatMap` body: severity is `high` exactly when a fix version exists,
the URL is built from a truthy first alias. -/
def mkPyVuln (d : PyDep) (v : PyVuln) : VulnerabilityInfo :=
  { pkg := d.name
  , severity := if v.fixVersions.isEmpty then "moderate" else "high"
  , title := jsOrStr v.id "Vulnerability"
  , url :=
      match v.aliases.head? with
      | some a => if a = "" then "" else "https://nvd.nist.gov/vuln/detail/" ++ a
      | none => ""
  , fixVersion := jsStrOrNull v.fixVersions.head?
  , currentVersion := jsStrOrNull d.version }

/-- The parse branch of `auditPython`: keep only dependencies with a nonempty
vulnerability sub-list, flatten, and recompute every count from the list.
(Both accepted JSON shapes — top-level array or `{dependencies: [...]}` —
normalize to the same dependency list.) -/
def auditPythonParsed (projectName auditCmd : String) (deps : List PyDep) :
    AuditResult :=
  let vulns :=
    (deps.filter fun d => !d.vulns.isEmpty).flatMap fun d => d.vulns.map (mkPyVuln d)
  { project := projectName, language := "python", vulnerabilities := vulns
  , totalVulnerabilities := vulns.length
  , critical := countSev vulns "critical", high := countSev vulns "high"
  , moderate := countSev vulns "moderate", low := countSev vulns "low"
  , auditCommand := auditCmd, error := none }

/-- The command `auditPython` runs, by which tool exists. -/
def pyAuditCmd (hasPipAudit : Bool) : String :=
  if hasPipAudit then "pip-audit --format=json -r requirements.txt"
  else "pip3 audit --format=json"

/-- `auditPython` with its environment explicit.  A falsy raw output returns a
null-error empty result (source comment: "No issues or tool not available"). -/
def auditPython (hasPipAudit hasPip3 rawTruthy : Bool)
    (parsed : Option (List PyDep)) (projectName : String) : AuditResult :=
  if !hasPipAudit && !hasPip3 then
    emptyResult projectName "python" "pip-audit"
      (some "pip-audit not installed. Run: pip install pip-audit")
  else
    let auditCmd := pyAuditCmd hasPipAudit
    if !rawTruthy then emptyResult projectName "python" auditCmd none
    else
      match parsed with
      | none => emptyResult projectName "python" auditCmd
          (some "Failed to parse audit output.")
      | some deps => auditPythonParsed projectName auditCmd deps

/-! ### PHP adapter (`audit.ts`, `auditPhp`) -/

/-- One composer advisory record. -/
structure PhpAdvisory where
  title : Option String
  advisoryId : Option String
  link : Option String
  affectedVersions : Option String
deriving DecidableEq, Repr

/-- The `vulns.push({...})` body of `auditPhp`: severity is always `"high"`,
the title chains `adv.title || adv.advisoryId || "Vulnerability"`. -/
def mkPhpVuln (p : String) (adv : PhpAdvisory) : VulnerabilityInfo :=
  { pkg := p
  , severity := "high"
  , title := jsOrStr adv.title (jsOrStr adv.advisoryId "Vulnerability")
  , url := jsOrStr adv.link ""
  , fixVersion := none
  , currentVersion := jsStrOrNull adv.affectedVersions }

/-- The parse branch of `auditPhp`: `data.advisories || {}` as an entry list,
a non-array advisory value reading as `[]` (`Option.none`); the summary
hardcodes `critical: 0, high: vulns.length, moderate: 0, low: 0`. -/
def auditPhpParsed (projectName : String)
    (advisories : List (String × Option (List PhpAdvisory))) : AuditResult :=
  let vulns := advisories.flatMap fun e => (e.2.getD []).map (mkPhpVuln e.1)
  { project := projectName, language := "php", vulnerabilities := vulns
  , totalVulnerabilities := vulns.length
  , critical := 0, high := vulns.length, moderate := 0, low := 0
  , auditCommand := "composer audit --format=json", error := none }

/-- `auditPhp` with its environment explicit. -/
def auditPhp (hasComposer rawTruthy : Bool)
    (parsed : Option (List (String × Option (List PhpAdvisory))))
    (projectName : String) : AuditResult :=
  if !hasComposer then
    emptyResult projectName "php" "composer audit" (some "Composer not installed.")
  else if !rawTruthy then
    emptyResult projectName "php" "composer audit --format=json" none
  else
    match parsed with
    | none => emptyResult projectName "php" "composer audit" (some "Failed to parse.")
    | some advisories => auditPhpParsed projectName advisories

/-! ### Go adapter (`audit.ts`, `auditGo`) -/

/-- The fields read from one govulncheck `vulnerability` object. -/
structure GoVuln where
  id : Option String
  module : Option String
  fixedVersion : Option String
  foundVersion : Option String
deriving DecidableEq, Repr

/-- One newline-delimited JSON line of govulncheck output: `none` is a line
whose `JSON.parse` throws (skipped), `some none` a parsed line without a
`vulnerability` field, `some (some v)` a vulnerability line. -/
def GoLine : Type := Option (Option GoVuln)

/-- JS template interpolation of a possibly-`undefined` id
(an absent id renders as the string `"undefined"`). -/
def goIdText : Option String → String
  | some s => s
  | none => "undefined"

/-- The push body of the go line loop: severity is always `"high"`. -/
def mkGoVuln (v : GoVuln) : VulnerabilityInfo :=
  { pkg := jsOrStr v.module "unknown"
  , severity := "high"
  , title := jsOrStr v.id "Vulnerability"
  , url := "https://pkg.go.dev/vuln/" ++ goIdText v.id
  , fixVersion := jsStrOrNull v.fixedVersion
  , currentVersion := jsStrOrNull v.foundVersion }

/-- The line loop of `auditGo`: unparseable lines and lines without a
`vulnerability` field are skipped; the summary hardcodes
`critical: 0, high: vulns.length, moderate: 0, low: 0`. -/
def auditGoParsed (projectName : String) (lines : List GoLine) : AuditResult :=
  let vulns := lines.filterMap fun l =>
    match l with
    | some (some v) => some (mkGoVuln v)
    | _ => none
  { project := projectName, language := "go", vulnerabilities := vulns
  , totalVulnerabilities := vulns.length
  , critical := 0, high := vulns.length, moderate := 0, low := 0
  , auditCommand := "govulncheck -json ./...", error := none }

/-- `auditGo` with its environment explicit (the outer catch is unreachable:
every per-line parse failure is already caught inside the loop). -/
def auditGo (hasGovulncheck rawTruthy : Bool) (lines : List GoLine)
    (projectName : String) : AuditResult :=
  if !hasGovulncheck then
    emptyResult projectName "go" "govulncheck"
      (some "govulncheck not installed. Run: go install golang.org/x/vuln/cmd/govulncheck@latest")
  else if !rawTruthy then
    emptyResult projectName "go" "govulncheck -json ./..." none
  else
    auditGoParsed projectName lines

/-! ### Aggregator (`audit.ts`, `auditAllProjects`) -/

/-- One discovered project handed to the aggregator. -/
structure Project where
  name : String
  path : String
  language : String
deriving DecidableEq, Repr

/-- `auditAllProjects`, with the per-project `auditProject` dispatch (whose
outcome depends on each project's filesystem/subprocess environment) abstracted
as the function `audit`: map it over the projects, then
`.filter(r => r.totalVulnerabilities > 0 || r.error)` (JS truthiness on the
error string). -/
def auditAllProjectsWith (audit : Project → AuditResult) (ps : List Project) :
    List AuditResult :=
  (ps.map audit).filter fun r =>
    decide (0 < r.totalVulnerabilities) || jsTruthyOptStr r.error

/-! ### Auxiliary predicates and lemmas -/

/-- Every component is zero. -/
def allZero : List Int → Bool
  | [] => true
  | a :: xs => a == 0 && allZero xs

/-- Position-wise equality of component lists, missing trailing components
reading as zero. -/
def padEq : List Int → List Int → Bool
  | [], ys => allZero ys
  | xs, [] => allZero xs
  | a :: xs, b :: ys => a == b && padEq xs ys

theorem cmpTail_eq_zero_of_allZero : ∀ {xs : List Int}, allZero xs = true → cmpTail xs = 0 := by
  intro xs h
  induction xs with
  | nil => rfl
  | cons a as2 ih =>
    simp only [allZero, Bool.and_eq_true, beq_iff_eq] at h
    simp only [cmpTail, h.1, ne_eq, not_true_eq_false, if_false]
    exact ih h.2

theorem cmpComponents_eq_zero_of_padEq :
    ∀ (xs ys : List Int), padEq xs ys = true → cmpComponents xs ys = 0 := by
  intro xs
  induction xs with
  | nil =>
    intro ys h
    cases ys with
    | nil => rfl
    | cons b bs =>
      show -(cmpTail (b :: bs)) = 0
      rw [cmpTail_eq_zero_of_allZero (show allZero (b :: bs) = true from h)]
      rfl
  | cons a as2 ih =>
    intro ys h
    cases ys with
    | nil =>
      show cmpTail (a :: as2) = 0
      exact cmpTail_eq_zero_of_allZero h
    | cons b bs =>
      simp only [padEq, Bool.and_eq_true, beq_iff_eq] at h
      show (if a ≠ b then a - b else cmpComponents as2 bs) = 0
      rw [if_neg (by simp [h.1]), ih bs h.2]

theorem cmpComponents_antisymm :
    ∀ (xs ys : List Int), cmpComponents xs ys = -(cmpComponents ys xs) := by
  intro xs
  induction xs with
  | nil =>
    intro ys
    cases ys with
    | nil => rfl
    | cons b bs => rfl
  | cons a as2 ih =>
    intro ys
    cases ys with
    | nil => exact (neg_neg _).symm
    | cons b bs =>
      show (if a ≠ b then a - b else cmpComponents as2 bs) =
        -(if b ≠ a then b - a else cmpComponents bs as2)
      rcases eq_or_ne a b with h | h
      · subst h
        simp only [ne_eq, not_true_eq_false, if_false]
        exact ih bs
      · rw [if_pos h, if_pos h.symm]
        omega

theorem countSev_eq_length_of_all {vs : List VulnerabilityInfo} {s : String}
    (h : ∀ v ∈ vs, v.severity = s) : countSev vs s = vs.length := by
  unfold countSev
  rw [List.filter_eq_self.mpr]
  intro v hv
  simp [h v hv]

theorem countSev_eq_zero_of_all {vs : List VulnerabilityInfo} {s t : String}
    (h : ∀ v ∈ vs, v.severity = s) (hst : s ≠ t) : countSev vs t = 0 := by
  unfold countSev
  rw [List.filter_eq_nil_iff.mpr, List.length_nil]
  intro v hv
  simp [h v hv, hst]

theorem phpVulns_all_high
    (advisories : List (String × Option (List PhpAdvisory))) :
    ∀ v ∈ advisories.flatMap (fun e => (e.2.getD []).map (mkPhpVuln e.1)),
      v.severity = "high" := by
  intro v hv
  simp only [List.mem_flatMap, List.mem_map] at hv
  obtain ⟨e, _, a, _, rfl⟩ := hv
  rfl

theorem goVulns_all_high (lines : List GoLine) :
    ∀ v ∈ lines.filterMap (fun l =>
        match l with
        | some (some g) => some (mkGoVuln g)
        | _ => none),
      v.severity = "high" := by
  intro v hv
  simp only [List.mem_filterMap] at hv
  obtain ⟨l, _, hsome⟩ := hv
  match l with
  | some (some g) =>
      cases hsome
      rfl
  | some none => exact absurd hsome (by simp)
  | none => exact absurd hsome (by simp)

/-! ### Claim theorems -/

/-- C1 (counterexample): the node adapter takes its summary counts from the
upstream `metadata.vulnerabilities` block when those are nonzero, so they can
drift from the normalized list: with a metadata `critical` of `3` and a
vulnerability list holding a single `high` finding, the produced `AuditResult`
reports `critical = 3` while the list contains no critical entry. -/
theorem auditNode_metadata_drift_cex :
    (auditNode
        { hasPnpmLock := false, hasYarnLock := false, hasBunLock := false
        , rawTruthy := true
        , parseResult := some
            { vulnerabilities := some [("lodash",
                { severity := some "high", via := some [], fixAvailable := .missing
                , range := none })]
            , metadata := some
                { total := some 1, critical := some 3, high := none
                , moderate := none, low := none } } } "demo").critical = 3 ∧
    countSev (auditNode
        { hasPnpmLock := false, hasYarnLock := false, hasBunLock := false
        , rawTruthy := true
        , parseResult := some
            { vulnerabilities := some [("lodash",
                { severity := some "high", via := some [], fixAvailable := .missing
                , range := none })]
            , metadata := some
                { total := some 1, critical := some 3, high := none
                , moderate := none, low := none } } } "demo").vulnerabilities
      "critical" = 0 ∧
    ¬ sevConsistent (auditNode
        { hasPnpmLock := false, hasYarnLock := false, hasBunLock := false
        , rawTruthy := true
        , parseResult := some
            { vulnerabilities := some [("lodash",
                { severity := some "high", via := some [], fixAvailable := .missing
                , range := none })]
            , metadata := some
                { total := some 1, critical := some 3, high := none
                , moderate := none, low := none } } } "demo") := by
  decide

/-- C1 (amended): the rust, python, php and go adapters always satisfy the
severity-count invariant — each count equals the number of entries of that
severity in the result's own vulnerability list — on every environment
(tool-missing, command-failure, parse-failure and parsed outcomes alike);
the node adapter prefers the upstream metadata counters when present and
nonzero, and its counts equal the recomputed list counts whenever the
metadata block is absent. -/
theorem adapters_sevConsistent :
    (∀ a b c p n, sevConsistent (auditRust a b c p n)) ∧
    (∀ a b c p n, sevConsistent (auditPython a b c p n)) ∧
    (∀ a b p n, sevConsistent (auditPhp a b p n)) ∧
    (∀ a b l n, sevConsistent (auditGo a b l n)) ∧
    (∀ n c d, d.metadata = none → sevConsistent (auditNodeParsed n c d)) := by
  refine ⟨fun a b c p n => ?_, fun a b c p n => ?_, fun a b p n => ?_,
    fun a b l n => ?_, fun n c d h => ?_⟩
  · unfold auditRust
    split_ifs
    · exact ⟨rfl, rfl, rfl, rfl⟩
    · exact ⟨rfl, rfl, rfl, rfl⟩
    · cases p with
      | none => exact ⟨rfl, rfl, rfl, rfl⟩
      | some entries => exact ⟨rfl, rfl, rfl, rfl⟩
  · unfold auditPython
    split_ifs
    · exact ⟨rfl, rfl, rfl, rfl⟩
    · exact ⟨rfl, rfl, rfl, rfl⟩
    · cases p with
      | none => exact ⟨rfl, rfl, rfl, rfl⟩
      | some deps => exact ⟨rfl, rfl, rfl, rfl⟩
  · unfold auditPhp
    split_ifs
    · exact ⟨rfl, rfl, rfl, rfl⟩
    · exact ⟨rfl, rfl, rfl, rfl⟩
    · cases p with
      | none => exact ⟨rfl, rfl, rfl, rfl⟩
      | some advisories =>
          have hall := phpVulns_all_high advisories
          exact ⟨(countSev_eq_zero_of_all hall (by decide)).symm,
                 (countSev_eq_length_of_all hall).symm,
                 (countSev_eq_zero_of_all hall (by decide)).symm,
                 (countSev_eq_zero_of_all hall (by decide)).symm⟩
  · unfold auditGo
    split_ifs
    · exact ⟨rfl, rfl, rfl, rfl⟩
    · exact ⟨rfl, rfl, rfl, rfl⟩
    · have hall := goVulns_all_high l
      exact ⟨(countSev_eq_zero_of_all hall (by decide)).symm,
             (countSev_eq_length_of_all hall).symm,
             (countSev_eq_zero_of_all hall (by decide)).symm,
             (countSev_eq_zero_of_all hall (by decide)).symm⟩
  · unfold auditNodeParsed sevConsistent
    simp [h, jsOrNat]

/-- C1 (amended, witness): the invariant evaluated on one concrete parsed
result per ecosystem, with the node metadata absent. -/
theorem adapters_sevConsistent_witness :
    sevConsistent (auditRust true true true
      (some [{ advPackage := some "openssl", cvss := some (91/10)
             , advTitle := some "t", advUrl := some "u"
             , patchedFirst := none, pkgVersion := some "1.0" }]) "r") ∧
    sevConsistent (auditPython true false true
      (some [{ name := "flask", version := some "2.0"
             , vulns := [{ id := some "PYSEC-1", aliases := ["CVE-1"]
                         , fixVersions := ["2.1"] }] }]) "p") ∧
    sevConsistent (auditPhp true true
      (some [("a/b", some [{ title := some "t", advisoryId := none
                           , link := none, affectedVersions := none }])]) "x") ∧
    sevConsistent (auditGo true true
      [some (some { id := some "GO-1", module := some "m"
                  , fixedVersion := none, foundVersion := none }), none] "g") ∧
    sevConsistent (auditNodeParsed "n" "npm audit --json"
      { vulnerabilities := some [("lodash",
          { severity := some "high", via := some [], fixAvailable := .missing
          , range := none })]
      , metadata := none }) :=
  ⟨adapters_sevConsistent.1 _ _ _ _ _,
   adapters_sevConsistent.2.1 _ _ _ _ _,
   adapters_sevConsistent.2.2.1 _ _ _ _,
   adapters_sevConsistent.2.2.2.1 _ _ _ _,
   adapters_sevConsistent.2.2.2.2 _ _ _ rfl⟩

/-- C2 (counterexample): with the installed map holding `express` at the empty
version string — present, hence non-absent — the `express` advisory is in the
catalog and `isInRange "" "<4.19.2"` is `true`, yet `checkProjectCves` emits no
match: the JS-falsy test `if (!version) continue` also skips an empty-string
version. -/
theorem checkCves_empty_version_cex :
    ({ id := "CVE-2024-29041", pkg := "express", severity := "moderate",
       title := "Open redirect in express.response.redirect",
       affectedVersions := "<4.19.2", patchedVersion := "4.19.2",
       url := "https://github.com/expressjs/express/security/advisories/GHSA-rv95-896h-c2vc",
       date := "2024-03-25" } : CveAdvisory) ∈ CVE_DATABASE ∧
    lookupJs [("express", "")] "express" = some "" ∧
    isInRange "" "<4.19.2" = true ∧
    checkCvesAgainst [("express", "")] CVE_DATABASE = [] := by
  refine ⟨by decide, rfl, by decide, by decide⟩

/-- C2 (amended): a `CveMatch` is emitted by the catalog lookup exactly when
the advisory's package name is present in the installed map with a non-empty
version string and `isInRange` holds on it; every emitted match carries the
looked-up version and `isAffected = true`. -/
theorem checkCves_mem_iff (installed : List (String × String))
    (db : List CveAdvisory) (m : CveMatch) :
    m ∈ checkCvesAgainst installed db ↔
      (m.advisory ∈ db ∧
       lookupJs installed m.advisory.pkg = some m.installedVersion ∧
       m.installedVersion ≠ "" ∧
       isInRange m.installedVersion m.advisory.affectedVersions = true ∧
       m.isAffected = true) := by
  obtain ⟨adv, iv, aff⟩ := m
  unfold checkCvesAgainst
  rw [List.mem_filterMap]
  constructor
  · rintro ⟨a, ha, hstep⟩
    rcases hl : lookupJs installed a.pkg with _ | v
    · rw [hl] at hstep
      exact absurd hstep (by simp)
    · rw [hl] at hstep
      dsimp only at hstep
      split_ifs at hstep with hv hr
      rw [Option.some.injEq, CveMatch.mk.injEq] at hstep
      obtain ⟨rfl, rfl, rfl⟩ := hstep
      exact ⟨ha, hl, hv, hr, rfl⟩
  · rintro ⟨ha, hl, hv, hr, haff⟩
    dsimp only at ha hl hv hr haff
    subst haff
    refine ⟨adv, ha, ?_⟩
    rw [hl]
    dsimp only
    rw [if_neg hv, if_pos hr]

/-- C3: for the range expression `">=5.1.0 <5.6.2"`, `isInRange` returns `true`
for version `"5.6.1"` and `false` for version `"5.6.2"`; moreover, on any
version the expression evaluates as the conjunction of its two
whitespace-separated constraints, with the `<` upper bound exclusive
(`compareVersions` strictly below zero against `"5.6.2"`). -/
theorem isInRange_devalue_range :
    isInRange "5.6.1" ">=5.1.0 <5.6.2" = true ∧
    isInRange "5.6.2" ">=5.1.0 <5.6.2" = false ∧
    ∀ v : String, isInRange v ">=5.1.0 <5.6.2" =
      (decide (0 ≤ compareVersions v "5.1.0") &&
       decide (compareVersions v "5.6.2" < 0)) := by
  refine ⟨by decide, by decide, fun v => ?_⟩
  have h : isInRange v ">=5.1.0 <5.6.2" =
      (constraintHolds v.data ['>', '='] ['5', '.', '1', '.', '0'] &&
       (constraintHolds v.data ['<'] ['5', '.', '6', '.', '2'] && true)) := rfl
  rw [h, Bool.and_true]
  rfl

/-- C4 (counterexample): `compareVersions` does not always land in `{-1,0,1}`:
on `"1.0"` and `"3.0"` it returns the raw component difference `-2`. -/
theorem compareVersions_not_tristate :
    compareVersions "1.0" "3.0" = -2 ∧
    compareVersions "1.0" "3.0" ≠ -1 ∧
    compareVersions "1.0" "3.0" ≠ 0 ∧
    compareVersions "1.0" "3.0" ≠ 1 := by
  decide

/-- C4 (amended): `compareVersions` returns the first nonzero positional
difference of the numeric components (an arbitrary integer, not one of
`{-1,0,1}`); only its sign is meaningful, and it is antisymmetric:
`compareVersions a b = -(compareVersions b a)`. -/
theorem compareVersions_antisymm (a b : String) :
    compareVersions a b = -(compareVersions b a) :=
  cmpComponents_antisymm _ _

/-- C5: whenever two version strings have position-wise equal numeric
components after stripping leading non-digits, with missing trailing
components read as zero, `compareVersions` returns `0`. -/
theorem compareVersions_eq_zero_of_padEq (a b : String)
    (h : padEq (parseVersion a) (parseVersion b) = true) :
    compareVersions a b = 0 :=
  cmpComponents_eq_zero_of_padEq _ _ h

/-- C5 (witness): `"5.1"` and `"5.1.0"` are component-wise equal up to a
trailing zero, and `compareVersions "5.1" "5.1.0" = 0`. -/
theorem compareVersions_eq_zero_of_padEq_witness :
    padEq (parseVersion "5.1") (parseVersion "5.1.0") = true ∧
    compareVersions "5.1" "5.1.0" = 0 :=
  ⟨by decide, compareVersions_eq_zero_of_padEq "5.1" "5.1.0" (by decide)⟩

/-- C6: `isInRange` is total (it is a Lean function, never throwing), and when
no whitespace-separated token of the range expression parses as an operator
followed by a version, every token is silently skipped and the expression
imposes no constraint: `isInRange` returns `true` for every version. -/
theorem isInRange_fail_open (v range : String)
    (h : ∀ tok ∈ splitWs range.data, parseConstraint tok = none) :
    isInRange v range = true := by
  unfold isInRange
  rw [List.all_eq_true]
  intro tok htok
  simp [h tok htok]

/-- C6 (witness): no token of `"not-a-constraint"` parses as a constraint, and
`isInRange "1.2.3" "not-a-constraint"` is `true`. -/
theorem isInRange_fail_open_witness :
    (∀ tok ∈ splitWs "not-a-constraint".data, parseConstraint tok = none) ∧
    isInRange "1.2.3" "not-a-constraint" = true :=
  ⟨by decide, isInRange_fail_open "1.2.3" "not-a-constraint" (by decide)⟩

/-- C8 (counterexample): a present CVSS score of `0` is numeric and below `4`,
so the claim maps it to `"low"`; the code's leading JS-falsy test `!cvss`
catches `0` first and returns `"moderate"`. -/
theorem mapRustSeverity_zero_cex :
    mapRustSeverity (some 0) = "moderate" ∧ mapRustSeverity (some 0) ≠ "low" := by
  constructor
  · rfl
  · decide

/-- C8 (amended): the rust severity mapping is `≥9 → critical`, `≥7 → high`,
`≥4 → moderate`, else `low`, with an absent score defaulting to `"moderate"` —
except that a score of `0` (JS-falsy) also defaults to `"moderate"` rather
than mapping to `"low"`. -/
theorem mapRustSeverity_thresholds :
    mapRustSeverity none = "moderate" ∧
    mapRustSeverity (some 0) = "moderate" ∧
    (∀ q : ℚ, 9 ≤ q → mapRustSeverity (some q) = "critical") ∧
    (∀ q : ℚ, 7 ≤ q → q < 9 → mapRustSeverity (some q) = "high") ∧
    (∀ q : ℚ, 4 ≤ q → q < 7 → mapRustSeverity (some q) = "moderate") ∧
    (∀ q : ℚ, q ≠ 0 → q < 4 → mapRustSeverity (some q) = "low") := by
  refine ⟨rfl, rfl, fun q h9 => ?_, fun q h7 h9 => ?_, fun q h4 h7 => ?_,
    fun q h0 h4 => ?_⟩
  · have h0 : ¬ q = 0 := by intro h; rw [h] at h9; norm_num at h9
    simp only [mapRustSeverity]
    rw [if_neg h0, if_pos h9]
  · have h0 : ¬ q = 0 := by intro h; rw [h] at h7; norm_num at h7
    simp only [mapRustSeverity]
    rw [if_neg h0, if_neg (not_le.mpr h9), if_pos h7]
  · have h0 : ¬ q = 0 := by intro h; rw [h] at h4; norm_num at h4
    simp only [mapRustSeverity]
    rw [if_neg h0, if_neg (show ¬(9:ℚ) ≤ q by linarith),
      if_neg (not_le.mpr h7), if_pos h4]
  · simp only [mapRustSeverity]
    rw [if_neg h0, if_neg (show ¬(9:ℚ) ≤ q by linarith),
      if_neg (show ¬(7:ℚ) ≤ q by linarith), if_neg (not_le.mpr h4)]

/-- C7 (counterexample): the aggregator keeps a result whose
`totalVulnerabilities` field is positive even when its vulnerability list is
empty and its error is null — reachable through the node adapter, whose total
can come from upstream metadata: such a "clean" result (zero findings, null
error) is present in the output, not absent. -/
theorem auditAllProjects_keeps_zero_finding_result_cex :
    auditAllProjectsWith
        (fun p => auditNode
          { hasPnpmLock := false, hasYarnLock := false, hasBunLock := false
          , rawTruthy := true
          , parseResult := some
              { vulnerabilities := some []
              , metadata := some
                  { total := some 3, critical := none, high := none
                  , moderate := none, low := none } } } p.name)
        [{ name := "a", path := "P1", language := "node" }] =
      [auditNode
          { hasPnpmLock := false, hasYarnLock := false, hasBunLock := false
          , rawTruthy := true
          , parseResult := some
              { vulnerabilities := some []
              , metadata := some
                  { total := some 3, critical := none, high := none
                  , moderate := none, low := none } } } "a"] ∧
    (auditNode
        { hasPnpmLock := false, hasYarnLock := false, hasBunLock := false
        , rawTruthy := true
        , parseResult := some
            { vulnerabilities := some []
            , metadata := some
                { total := some 3, critical := none, high := none
                , moderate := none, low := none } } } "a").vulnerabilities = [] ∧
    (auditNode
        { hasPnpmLock := false, hasYarnLock := false, hasBunLock := false
        , rawTruthy := true
        , parseResult := some
            { vulnerabilities := some []
            , metadata := some
                { total := some 3, critical := none, high := none
                , moderate := none, low := none } } } "a").error = none := by
  decide

theorem map_filter_eq_filterMap {α β : Type} (f : α → β) (q : β → Bool)
    (l : List α) :
    (l.map f).filter q = l.filterMap fun a => if q (f a) then some (f a) else none := by
  induction l with
  | nil => rfl
  | cons a l ih =>
    simp only [List.map_cons, List.filter_cons, List.filterMap_cons]
    cases h : q (f a) <;> simp [h, ih]

/-- C7 (amended): the aggregator returns, in input order, exactly the
per-project results whose `totalVulnerabilities` field is positive or whose
error string is truthy (non-null and non-empty); since `totalVulnerabilities`
need not equal the length of the vulnerability list (node metadata), this is
not the same as "at least one vulnerability finding". -/
theorem auditAllProjects_characterization (audit : Project → AuditResult)
    (ps : List Project) :
    auditAllProjectsWith audit ps =
      (ps.filterMap fun p =>
        if decide (0 < (audit p).totalVulnerabilities) || jsTruthyOptStr (audit p).error
        then some (audit p) else none) ∧
    ∀ r ∈ auditAllProjectsWith audit ps,
      (decide (0 < r.totalVulnerabilities) || jsTruthyOptStr r.error) = true := by
  constructor
  · exact map_filter_eq_filterMap audit _ ps
  · intro r hr
    exact (List.mem_filter.mp hr).2

/-- C8 (amended, witness): the threshold mapping evaluated at `9`, `8`, `5`,
and `1`. -/
theorem mapRustSeverity_thresholds_witness :
    mapRustSeverity (some 9) = "critical" ∧ mapRustSeverity (some 8) = "high" ∧
    mapRustSeverity (some 5) = "moderate" ∧ mapRustSeverity (some 1) = "low" :=
  ⟨mapRustSeverity_thresholds.2.2.1 9 (by norm_num),
   mapRustSeverity_thresholds.2.2.2.1 8 (by norm_num) (by norm_num),
   mapRustSeverity_thresholds.2.2.2.2.1 5 (by norm_num) (by norm_num),
   mapRustSeverity_thresholds.2.2.2.2.2 1 (by norm_num) (by norm_num)⟩

/-- C9 (counterexample): a python project with no `requirements.txt` makes
`pip-audit` print an error message (captured from stderr by `cmd`, lines
39-40), which is truthy but not JSON: the adapter returns the parse-failure
error result, not a zero-vulnerability null-error result. -/
theorem auditPython_no_manifest_parse_failure_cex :
    auditPython true false true none "proj" =
      emptyResult "proj" "python" "pip-audit --format=json -r requirements.txt"
        (some "Failed to parse audit output.") ∧
    (auditPython true false true none "proj").error ≠ none := by
  decide

/-- C9 (amended): when the audit command produces no captured output (as for
a missing manifest with a quiet tool), the python, php and go adapters return
a zero-vulnerability result with a null error; the node and rust adapters
instead return a non-null command-failure error in that situation, and any
captured non-JSON output (such as tool error text relayed from stderr) yields
a parse-failure error rather than a null one. -/
theorem adapters_no_output_behavior :
    (∀ (hPA hP3 : Bool) (p : Option (List PyDep)) (n : String),
       (hPA || hP3) = true →
       auditPython hPA hP3 false p n = emptyResult n "python" (pyAuditCmd hPA) none) ∧
    (∀ (p : Option (List (String × Option (List PhpAdvisory)))) (n : String),
       auditPhp true false p n =
         emptyResult n "php" "composer audit --format=json" none) ∧
    (∀ (l : List GoLine) (n : String),
       auditGo true false l n = emptyResult n "go" "govulncheck -json ./..." none) ∧
    (∀ (e : NodeEnv) (n : String), e.rawTruthy = false →
       auditNode e n = emptyResult n "node" (nodeAuditCmd (detectPm e))
         (some "Audit command failed or timed out.")) ∧
    (∀ (hC : Bool) (p : Option (List RustVulnEntry)) (n : String),
       auditRust true hC false p n =
         emptyResult n "rust" "cargo audit --json" (some "Audit command failed.")) ∧
    (∀ (hP3 : Bool) (n : String),
       auditPython true hP3 true none n =
         emptyResult n "python" (pyAuditCmd true)
           (some "Failed to parse audit output.")) := by
  refine ⟨fun hPA hP3 p n h => ?_, fun p n => rfl, fun l n => rfl,
    fun e n h => ?_, fun hC p n => rfl, fun hP3 n => rfl⟩
  · cases hPA <;> cases hP3 <;> simp_all [auditPython, pyAuditCmd]
  · unfold auditNode
    rw [h]
    rfl

/-- C9 (amended, witness): the no-output behavior evaluated concretely for the
python and node adapters. -/
theorem adapters_no_output_behavior_witness :
    auditPython true false false none "w" =
      emptyResult "w" "python" (pyAuditCmd true) none ∧
    auditNode
        { hasPnpmLock := false, hasYarnLock := false, hasBunLock := false
        , rawTruthy := false, parseResult := none } "w" =
      emptyResult "w" "node"
        (nodeAuditCmd (detectPm
          { hasPnpmLock := false, hasYarnLock := false, hasBunLock := false
          , rawTruthy := false, parseResult := none }))
        (some "Audit command failed or timed out.") :=
  ⟨adapters_no_output_behavior.1 true false none "w" rfl,
   adapters_no_output_behavior.2.2.2.1
     { hasPnpmLock := false, hasYarnLock := false, hasBunLock := false
     , rawTruthy := false, parseResult := none } "w" rfl⟩

/-- C10: when lockfile detection selects yarn (no `pnpm-lock.yaml`, a
`yarn.lock` present) and the invoked `yarn audit --json` produces output, the
node adapter never parses it: control falls through the npm/pnpm-only parsing
branch and the adapter returns an empty result with all counts zero and a null
error, whatever the tool reported. -/
theorem auditNode_yarn_output_ignored (e : NodeEnv) (n : String)
    (h1 : e.hasPnpmLock = false) (h2 : e.hasYarnLock = true)
    (h3 : e.rawTruthy = true) :
    auditNode e n = emptyResult n "node" "yarn audit --json" none := by
  unfold auditNode detectPm nodeAuditCmd
  rw [h1, h2, h3]
  rfl

/-- C10 (witness): the yarn branch evaluated on an environment whose parsed
output would hold a critical vulnerability — it is ignored. -/
theorem auditNode_yarn_output_ignored_witness :
    auditNode
        { hasPnpmLock := false, hasYarnLock := true, hasBunLock := false
        , rawTruthy := true
        , parseResult := some
            { vulnerabilities := some [("bad-pkg",
                { severity := some "critical", via := some []
                , fixAvailable := .missing, range := none })]
            , metadata := none } } "w" =
      emptyResult "w" "node" "yarn audit --json" none :=
  auditNode_yarn_output_ignored
    { hasPnpmLock := false, hasYarnLock := true, hasBunLock := false
    , rawTruthy := true
    , parseResult := some
        { vulnerabilities := some [("bad-pkg",
            { severity := some "critical", via := some []
            , fixAvailable := .missing, range := none })]
        , metadata := none } } "w" rfl rfl rfl

end DepRadar
